import Mathlib

/-!
Shallow embedding of the Naumachia manager (`src/manager/app/naum.py`) and
verification of the specification claims about it.

Conventions used throughout:
* Python strings are Lean `String`s (the common names handled by the manager
  are ASCII, so character counts and byte counts agree).
* Python `set` objects are `Finset`s; Python `dict`s (which preserve
  insertion order) are association lists `List (String × _)`.
* Raised Python exceptions are `Except Err` results; side effects on the
  container orchestrator and on netlink, plus warning-level log lines, are
  recorded in an explicit `List Effect` trace.  Informational log lines are
  not modelled.
* `random.randint(10, 4000)` is modelled by an explicit stream
  `rand : Nat → Nat` of draws together with an iteration budget (`fuel`)
  for the retry loop of `_next_vlan`; a `none` result of the loop means the
  loop has not exited within the budget (the Python loop has no exit other
  than finding a free id).
-/

namespace Naum

/-! ### Base32 decoding, as in CPython's `base64.b32decode`

`User.decode_cn` calls `base64.b32decode` on the padded common name and then
decodes the resulting bytes as UTF-8.  Both library routines are embedded
here; bytes are `Nat`s below 256 and decoding failure is `none` (the Python
code lets `binascii.Error` / `UnicodeDecodeError` escape, and never inspects
which of the two it was).
-/

/-- Reverse lookup of the RFC 4648 base32 alphabet (`A`–`Z`, `2`–`7`);
lower-case letters and any other character are invalid, as in CPython with
`casefold=False` and `map01=None`. -/
def b32rev (c : Char) : Option Nat :=
  if 'A' ≤ c ∧ c ≤ 'Z' then some (c.toNat - 'A'.toNat)
  else if '2' ≤ c ∧ c ≤ '7' then some (c.toNat - '2'.toNat + 26)
  else none

/-- Accumulate a group of 5-bit digits into a single natural number,
most-significant digit first. -/
def quantaAcc (g : List Nat) : Nat := g.foldl (fun a d => a * 32 + d) 0

/-- Big-endian fixed-width byte expansion of a natural number
(CPython's `int.to_bytes(len)`). -/
def natToBytesBE (n len : Nat) : List Nat :=
  (List.range len).map (fun i => n / 2 ^ (8 * (len - 1 - i)) % 256)

/-- Decode the `=`-stripped digit list group by group: every full group of
eight digits yields five bytes; the final partial group (present exactly when
`padchars > 0`) is shifted by the padding and truncated to
`(43 - 5*padchars) / 8` bytes, as in CPython's `b32decode`. -/
def b32groups (padchars : Nat) : List Nat → List Nat
  | [] => []
  | d1 :: d2 :: d3 :: d4 :: d5 :: d6 :: d7 :: d8 :: rest =>
    natToBytesBE (quantaAcc [d1, d2, d3, d4, d5, d6, d7, d8]) 5 ++ b32groups padchars rest
  | ds =>
    (natToBytesBE (quantaAcc ds * 2 ^ (5 * padchars)) 5).take ((43 - 5 * padchars) / 8)

/-- CPython `base64.b32decode` on a character list: the length must be a
multiple of eight, trailing `=` padding must amount to 0, 1, 3, 4 or 6
characters, and every remaining character must be a base32 digit. -/
def b32decodeBytes (cs : List Char) : Option (List Nat) :=
  if cs.length % 8 ≠ 0 then none
  else
    let stripped := (cs.reverse.dropWhile (fun c => c == '=')).reverse
    let padchars := cs.length - stripped.length
    if padchars = 0 ∨ padchars = 1 ∨ padchars = 3 ∨ padchars = 4 ∨ padchars = 6 then
      match stripped.mapM b32rev with
      | none => none
      | some idxs => some (b32groups padchars idxs)
    else none

/-! ### Strict UTF-8 decoding, as in CPython's `bytes.decode('utf-8')` -/

/-- A UTF-8 continuation byte (`0x80`–`0xBF`). -/
def utf8Cont (b : Nat) : Bool := 128 ≤ b && b ≤ 191

/-- Strict UTF-8 decoder returning the list of decoded code points; rejects
truncated sequences, bad continuation bytes, overlong encodings, surrogates
and values beyond `U+10FFFF`, exactly the inputs on which CPython's strict
`bytes.decode('utf-8')` raises `UnicodeDecodeError`. -/
def utf8decode : List Nat → Option (List Nat)
  | [] => some []
  | b :: bs =>
    if b ≤ 127 then
      (utf8decode bs).map (fun r => b :: r)
    else if 194 ≤ b && b ≤ 223 then
      match bs with
      | b2 :: bs2 =>
        if utf8Cont b2 then
          (utf8decode bs2).map (fun r => ((b - 192) * 64 + (b2 - 128)) :: r)
        else none
      | [] => none
    else if 224 ≤ b && b ≤ 239 then
      match bs with
      | b2 :: b3 :: bs2 =>
        let lo := if b = 224 then 160 else 128
        let hi := if b = 237 then 159 else 191
        if (lo ≤ b2 && b2 ≤ hi) && utf8Cont b3 then
          (utf8decode bs2).map
            (fun r => ((b - 224) * 4096 + (b2 - 128) * 64 + (b3 - 128)) :: r)
        else none
      | _ => none
    else if 240 ≤ b && b ≤ 244 then
      match bs with
      | b2 :: b3 :: b4 :: bs2 =>
        let lo := if b = 240 then 144 else 128
        let hi := if b = 244 then 143 else 191
        if (lo ≤ b2 && b2 ≤ hi) && (utf8Cont b3 && utf8Cont b4) then
          (utf8decode bs2).map
            (fun r =>
              ((b - 240) * 262144 + (b2 - 128) * 4096 + (b3 - 128) * 64 + (b4 - 128)) :: r)
        else none
      | _ => none
    else none

/-- `User.decode_cn`: pad the common name with `=` up to a multiple of eight
characters, base32-decode it, and decode the bytes as UTF-8.  The result is
the list of code points of the display name; `none` models the uncaught
`binascii.Error` / `UnicodeDecodeError`. -/
def decode_cn (cn : String) : Option (List Nat) :=
  let missing := cn.length % 8
  let padded :=
    if missing ≠ 0 then cn ++ String.mk (List.replicate (8 - missing) '=') else cn
  match b32decodeBytes padded.data with
  | none => none
  | some bytes => utf8decode bytes

/-! ### Errors and effect traces -/

/-- Python exceptions that can escape the modelled operations.  The last two
constructors are the spec's error taxonomy (§7); they are needed to state the
spec's claims but are never constructed by the embedded code, which defines
no such exception classes. -/
inductive Err
  | keyError (key : String)
  | decodeError
  | attributeError
  | unknownChallengeError
  | exhaustionError
deriving DecidableEq, Repr

/-- Observable side effects: calls into the container orchestrator
(`docker-compose top/up/down`), netlink mutations, and warning-level log
lines.  Informational log lines are not recorded. -/
inductive Effect
  | vethUp (ifname : String)
  | composeTop (projectId : String)
  | composeUp (projectId : String)
  | composeDown (projectId : String) (timeout : Nat)
  | vlanBridged (ifname : String) (vlanId : Nat)
  | vlanGone (ifname : String)
  | warn
deriving DecidableEq, Repr

/-- Whether an effect is a `docker-compose up` invocation. -/
def isComposeUp : Effect → Bool
  | .composeUp _ => true
  | _ => false

/-- Number of `docker-compose up` invocations in a trace. -/
def composeUpCount (effs : List Effect) : Nat := (effs.filter isComposeUp).length

/-! ### Ordered string-keyed maps (Python `dict`) -/

/-- Ordered lookup in an association list (Python `d[k]` / `k in d`). -/
def lookup {α : Type} : List (String × α) → String → Option α
  | [], _ => none
  | (k, v) :: rest, key => if key = k then some v else lookup rest key

/-- Replace the value stored under an existing key, keeping insertion order
(Python object mutation reflected into the functional state). -/
def update {α : Type} : List (String × α) → String → α → List (String × α)
  | [], _, _ => []
  | (k, v) :: rest, key, nv =>
    if key = k then (k, nv) :: rest else (k, v) :: update rest key nv

/-! ### State of `User`, `Challenge` and `Manager` -/

/-- State of a `User` object.  `name` is the decoded display name (code
points), `id` the compose project id `cn.lower() + "_" + challenge.name`,
`connections` the set of `"ip:port"` strings.  The back reference to the
challenge is modelled by passing the challenge's data into each method. -/
structure UserSt where
  cn : String
  name : List Nat
  vlan : Nat
  id : String
  connections : Finset String
deriving DecidableEq

/-- State of a `Challenge` object: registered name, host VETH interface
name, ordered compose file list, VLAN ids in use, and the ordered user map. -/
structure ChallengeSt where
  name : String
  host_veth : String
  compose_files : List String
  vlans : Finset Nat
  users : List (String × UserSt)
deriving DecidableEq

/-- State of the `Manager`: the ordered challenge map. -/
structure ManagerSt where
  challenges : List (String × ChallengeSt)
deriving DecidableEq

/-! ### `User` methods -/

/-- `User._fmt_address`: `'{}:{}'.format(address, port)`. -/
def fmt_address (address : String) (port : Nat) : String :=
  address ++ ":" ++ Nat.repr port

/-- `User._vlan_ifname`: `host_veth.ifname[:15-len(suffix)] + suffix` with
`suffix = '.{}'.format(vlan)`.  Python slicing with a possibly negative
bound is modelled exactly (a negative bound counts from the end). -/
def vlan_ifname (host_veth : String) (vlan : Nat) : String :=
  let suffix := "." ++ Nat.repr vlan
  let bound : Int := 15 - (suffix.length : Int)
  let keep : Nat := if bound < 0 then host_veth.length - (-bound).toNat else bound.toNat
  String.mk (host_veth.data.take keep) ++ suffix

/-- `User.__init__`: store the raw `cn`, decode the display name (the decode
is NOT guarded — a failure escapes the constructor), record the vlan and
compute the project id.  `connections` starts empty. -/
def User.make (cn : String) (vlan : Nat) (challengeName : String) : Except Err UserSt :=
  match decode_cn cn with
  | none => .error .decodeError
  | some nm =>
    .ok { cn := cn, name := nm, vlan := vlan,
          id := cn.toLower ++ "_" ++ challengeName, connections := ∅ }

/-- `User.add_connection`: on the `0 → 1` connection transition query
`is_running` (a `compose top`), preemptively stop a stale cluster with
timeout 3, run `compose up` and bridge the VLAN; then insert the formatted
address into `connections`.  `running` is the answer the environment gives
to the `is_running` query if it is made. -/
def User.add_connection (u : UserSt) (host_veth : String) (running : Bool)
    (address : String) (port : Nat) : UserSt × List Effect :=
  let boot : List Effect :=
    if u.connections.card = 0 then
      [.composeTop u.id]
        ++ (if running then [.warn, .composeDown u.id 3] else [])
        ++ [.composeUp u.id, .vlanBridged (vlan_ifname host_veth u.vlan) u.vlan]
    else []
  ({ u with connections := insert (fmt_address address port) u.connections }, boot)

/-- `User.remove_connection`: removing an unknown address only warns; on the
`1 → 0` transition query `is_running` and either warn and return (cluster
not running: netlink untouched) or `compose down` with timeout 10 and remove
the VLAN sub-interface. -/
def User.remove_connection (u : UserSt) (host_veth : String) (running : Bool)
    (address : String) (port : Nat) : UserSt × List Effect :=
  let addr := fmt_address address port
  if addr ∉ u.connections then (u, [.warn])
  else
    let u2 := { u with connections := u.connections.erase addr }
    if u2.connections.card = 0 then
      if ¬ running then (u2, [.composeTop u.id, .warn])
      else
        (u2, [.composeTop u.id, .composeDown u.id 10,
              .vlanGone (vlan_ifname host_veth u.vlan)])
    else (u2, [])

/-- `User.stop`: `stop_compose(timeout=2)`. -/
def User.stop (u : UserSt) : UserSt × List Effect :=
  (u, [.composeDown u.id 2])

/-! ### `Challenge` methods

`Challenge._next_vlan` draws `random.randint(10, 4000)` until the draw is
not in `self.vlans`, then records and returns it.  The loop has no retry
bound and no error exit; it is modelled with an explicit draw stream and an
iteration budget, `none` meaning the loop is still running after `fuel`
iterations.  The operations that can allocate a VLAN or raise are therefore
`Option (Except Err _ × state)`, the outer `none` standing for a
non-terminating allocation loop. -/

/-- `Challenge._next_vlan`: `rand k, rand (k+1), …` are the successive
results of `random.randint(10, 4000)`. -/
def next_vlan (rand : Nat → Nat) (k : Nat) (vlans : Finset Nat) :
    Nat → Option (Nat × Finset Nat)
  | 0 => none
  | fuel + 1 =>
    let p := rand k
    if p ∉ vlans then some (p, insert p vlans)
    else next_vlan rand (k + 1) vlans fuel

/-- `Challenge._ensure_user_exists`: if `cn` is unknown, allocate a VLAN
(`_next_vlan` updates `self.vlans` first) and then construct the `User`; a
constructor failure escapes after the allocation, so the fresh VLAN id stays
in `vlans` while `users` is unchanged. -/
def ensure_user_exists (rand : Nat → Nat) (fuel : Nat) (c : ChallengeSt)
    (cn : String) : Option (Except Err Unit × ChallengeSt) :=
  if (lookup c.users cn).isSome then some (.ok (), c)
  else
    match next_vlan rand 0 c.vlans fuel with
    | none => none
    | some (v, vlans2) =>
      let c2 := { c with vlans := vlans2 }
      match User.make cn v c.name with
      | .error e => some (.error e, c2)
      | .ok u => some (.ok (), { c2 with users := c2.users ++ [(cn, u)] })

/-- `Challenge.connect_user`: get-or-create the user, delegate to
`add_connection`, and return `user.vlan`. -/
def Challenge.connect_user (rand : Nat → Nat) (fuel : Nat) (running : Bool)
    (c : ChallengeSt) (cn address : String) (port : Nat) :
    Option (Except Err Nat × ChallengeSt × List Effect) :=
  match ensure_user_exists rand fuel c cn with
  | none => none
  | some (.error e, c2) => some (.error e, c2, [])
  | some (.ok _, c2) =>
    match lookup c2.users cn with
    | none => some (.error (.keyError cn), c2, [])
    | some u =>
      let r := User.add_connection u c2.host_veth running address port
      some (.ok r.1.vlan, { c2 with users := update c2.users cn r.1 }, r.2)

/-- `Challenge.disconnect_user`: get-or-create the user (the disconnect path
also runs `_ensure_user_exists`), then delegate to `remove_connection`;
returns `None`. -/
def Challenge.disconnect_user (rand : Nat → Nat) (fuel : Nat) (running : Bool)
    (c : ChallengeSt) (cn address : String) (port : Nat) :
    Option (Except Err Unit × ChallengeSt × List Effect) :=
  match ensure_user_exists rand fuel c cn with
  | none => none
  | some (.error e, c2) => some (.error e, c2, [])
  | some (.ok _, c2) =>
    match lookup c2.users cn with
    | none => some (.error (.keyError cn), c2, [])
    | some u =>
      let r := User.remove_connection u c2.host_veth running address port
      some (.ok (), { c2 with users := update c2.users cn r.1 }, r.2)

/-- `Challenge.disconnect_all`: `for u in self.users: u.stop()` iterates the
KEYS of the user dict, so on a non-empty dict the first iteration calls
`.stop()` on a `str` and raises `AttributeError`; no user is stopped and no
compose command is issued. -/
def Challenge.disconnect_all (c : ChallengeSt) : Except Err Unit × List Effect :=
  match c.users with
  | [] => (.ok (), [])
  | _ :: _ => (.error .attributeError, [])

/-! ### `Manager` methods -/

/-- `Challenge.__init__`: bring the host VETH up, start with no users and no
allocated VLANs. -/
def Challenge.build (name host_veth : String) (compose_files : List String) :
    ChallengeSt × List Effect :=
  ({ name := name, host_veth := host_veth, compose_files := compose_files,
     vlans := ∅, users := [] }, [.vethUp host_veth])

/-- `Manager.register_challenge`: a duplicate name only logs a warning and
leaves the state untouched; otherwise construct and store a `Challenge`. -/
def Manager.register_challenge (m : ManagerSt) (name host_veth : String)
    (compose_files : List String) : ManagerSt × List Effect :=
  match lookup m.challenges name with
  | some _ => (m, [.warn])
  | none =>
    let r := Challenge.build name host_veth compose_files
    ({ challenges := m.challenges ++ [(name, r.1)] }, r.2)

/-- `Manager.connect_user`: `self.challenges[name]` — an unregistered name
raises `KeyError`; otherwise delegate to the challenge. -/
def Manager.connect_user (rand : Nat → Nat) (fuel : Nat) (running : Bool)
    (m : ManagerSt) (name cn address : String) (port : Nat) :
    Option (Except Err Nat × ManagerSt × List Effect) :=
  match lookup m.challenges name with
  | none => some (.error (.keyError name), m, [])
  | some c =>
    match Challenge.connect_user rand fuel running c cn address port with
    | none => none
    | some (r, c2, effs) =>
      some (r, { challenges := update m.challenges name c2 }, effs)

/-- `Manager.disconnect_user`: same lookup, delegating to
`Challenge.disconnect_user`. -/
def Manager.disconnect_user (rand : Nat → Nat) (fuel : Nat) (running : Bool)
    (m : ManagerSt) (name cn address : String) (port : Nat) :
    Option (Except Err Unit × ManagerSt × List Effect) :=
  match lookup m.challenges name with
  | none => some (.error (.keyError name), m, [])
  | some c =>
    match Challenge.disconnect_user rand fuel running c cn address port with
    | none => none
    | some (r, c2, effs) =>
      some (r, { challenges := update m.challenges name c2 }, effs)

/-! ### Helper lemmas about the ordered map and the allocator loop -/

instance {ε α : Type} [DecidableEq ε] [DecidableEq α] :
    DecidableEq (Except ε α) := fun x y =>
  match x, y with
  | .error e1, .error e2 =>
    if h : e1 = e2 then .isTrue (h ▸ rfl)
    else .isFalse (fun hh => h (by cases hh; rfl))
  | .ok a1, .ok a2 =>
    if h : a1 = a2 then .isTrue (h ▸ rfl)
    else .isFalse (fun hh => h (by cases hh; rfl))
  | .error _, .ok _ => .isFalse (fun hh => by cases hh)
  | .ok _, .error _ => .isFalse (fun hh => by cases hh)

theorem ensure_user_exists_of_mem (rand : Nat → Nat) (fuel : Nat)
    (c : ChallengeSt) (cn : String) (h : (lookup c.users cn).isSome = true) :
    ensure_user_exists rand fuel c cn = some (.ok (), c) := by
  simp [ensure_user_exists, h]

theorem lookup_append_right {α : Type} (l : List (String × α)) (k : String) (v : α)
    (h : lookup l k = none) : lookup (l ++ [(k, v)]) k = some v := by
  induction l with
  | nil => simp [lookup]
  | cons p rest ih =>
    obtain ⟨k1, v1⟩ := p
    by_cases hk : k = k1
    · simp [lookup, hk] at h
    · simp [lookup, hk] at h ⊢
      exact ih h

theorem lookup_update {α : Type} (l : List (String × α)) (k : String) (v w : α)
    (h : lookup l k = some w) : lookup (update l k v) k = some v := by
  induction l with
  | nil => simp [lookup] at h
  | cons p rest ih =>
    obtain ⟨k1, v1⟩ := p
    by_cases hk : k = k1
    · simp [lookup, update, hk]
    · simp [lookup, update, hk] at h ⊢
      exact ih h

theorem update_append_right {α : Type} (l : List (String × α)) (k : String) (v w : α)
    (h : lookup l k = none) : update (l ++ [(k, w)]) k v = l ++ [(k, v)] := by
  induction l with
  | nil => simp [update]
  | cons p rest ih =>
    obtain ⟨k1, v1⟩ := p
    by_cases hk : k = k1
    · simp [lookup, hk] at h
    · simp [lookup, hk] at h
      simp [update, hk, ih h]

theorem update_eq_of_lookup {α : Type} (l : List (String × α)) (k : String) (v : α)
    (h : lookup l k = some v) : update l k v = l := by
  induction l with
  | nil => simp [update]
  | cons p rest ih =>
    obtain ⟨k1, v1⟩ := p
    by_cases hk : k = k1
    · simp [lookup, hk] at h
      simp [update, hk, h]
    · simp [lookup, hk] at h
      simp [update, hk, ih h]

theorem next_vlan_none_of_full (rand : Nat → Nat)
    (hr : ∀ j, 10 ≤ rand j ∧ rand j ≤ 4000)
    (vlans : Finset Nat) (hfull : ∀ v, 10 ≤ v → v ≤ 4000 → v ∈ vlans) :
    ∀ fuel k, next_vlan rand k vlans fuel = none := by
  intro fuel
  induction fuel with
  | zero => intro k; rfl
  | succ n ih =>
    intro k
    have hm : rand k ∈ vlans := hfull _ (hr k).1 (hr k).2
    simp only [next_vlan, hm, not_true_eq_false, if_false]
    exact ih (k + 1)

theorem next_vlan_some (rand : Nat → Nat) (vlans : Finset Nat) :
    ∀ fuel k v vl2, next_vlan rand k vlans fuel = some (v, vl2) →
      v ∉ vlans ∧ vl2 = insert v vlans := by
  intro fuel
  induction fuel with
  | zero => intro k v vl2 h; simp [next_vlan] at h
  | succ n ih =>
    intro k v vl2 h
    by_cases hc : rand k ∈ vlans
    · simp only [next_vlan, hc, not_true_eq_false, if_false] at h
      exact ih (k + 1) v vl2 h
    · simp only [next_vlan, hc, not_false_eq_true, if_true, Option.some_inj,
        Prod.mk.injEq] at h
      obtain ⟨h1, h2⟩ := h
      subst h1
      subst h2
      exact ⟨hc, rfl⟩

/-- Reduction of `Challenge.connect_user` on a first-sight `cn` that decodes:
the user is created with the freshly allocated VLAN, the cluster is booted
(preceded by a stale-cluster cleanup when `running`), the VLAN is bridged,
and the connection is recorded. -/
theorem connect_user_first (rand : Nat → Nat) (fuel : Nat) (running : Bool)
    (c : ChallengeSt) (cn address : String) (port : Nat) (v : Nat)
    (vl2 : Finset Nat) (nm : List Nat)
    (hno : lookup c.users cn = none)
    (hdec : decode_cn cn = some nm)
    (halloc : next_vlan rand 0 c.vlans fuel = some (v, vl2)) :
    Challenge.connect_user rand fuel running c cn address port =
      some (.ok v,
        { c with vlans := vl2,
                 users := c.users ++
                   [(cn, { cn := cn, name := nm, vlan := v,
                           id := cn.toLower ++ "_" ++ c.name,
                           connections := {fmt_address address port} })] },
        [.composeTop (cn.toLower ++ "_" ++ c.name)]
          ++ (if running then
                [.warn, .composeDown (cn.toLower ++ "_" ++ c.name) 3] else [])
          ++ [.composeUp (cn.toLower ++ "_" ++ c.name),
              .vlanBridged (vlan_ifname c.host_veth v) v]) := by
  have hno2 : (lookup c.users cn).isSome = false := by simp [hno]
  have hlk := lookup_append_right c.users cn
    ({ cn := cn, name := nm, vlan := v, id := cn.toLower ++ "_" ++ c.name,
       connections := ∅ } : UserSt) hno
  have hup := update_append_right c.users cn
    ({ cn := cn, name := nm, vlan := v, id := cn.toLower ++ "_" ++ c.name,
       connections := {fmt_address address port} } : UserSt)
    ({ cn := cn, name := nm, vlan := v, id := cn.toLower ++ "_" ++ c.name,
       connections := ∅ } : UserSt) hno
  simp only [Challenge.connect_user, ensure_user_exists, hno2, Bool.false_eq_true,
    if_false, halloc, User.make, hdec, hlk, hup, User.add_connection,
    Finset.card_empty, if_true, insert_emptyc_eq]

/-- C1: the spec claims `_next_vlan` terminates for every allocator state,
returning a fresh id when one exists and raising `ExhaustionError` after a
bounded number of retries when all ids in `[10, 4000]` are in use.  The code
has no retry bound and no `ExhaustionError`: with every id in use, the loop
is still running after 2048 iterations (2048 exceeds the spec's suggested
1024-retry bound; by `next_vlan_none_of_full` the same holds for every
budget), for any in-range draw stream. -/
theorem C1_exhausted_counterexample :
    next_vlan (fun k => 10 + k % 3991) 0 (Finset.Icc 10 4000) 2048 = none :=
  next_vlan_none_of_full _ (fun j => ⟨by omega, by omega⟩) _
    (fun v h1 h2 => Finset.mem_Icc.mpr ⟨h1, h2⟩) 2048 0

/-- C1 (amended): if some draw within the iteration budget is an unused id
— with uniform draws over `[10, 4000]` this happens almost surely whenever
an unused id exists, e.g. in the state with 3990 of the 3991 ids in use —
`_next_vlan` returns an unused id in `[10, 4000]` and adds it to the
challenge's in-use set.  When all ids are in use, the loop never returns
(`next_vlan_none_of_full`); no `ExhaustionError` exists in the code. -/
theorem C1_next_vlan_allocates (rand : Nat → Nat) (vlans : Finset Nat)
    (fuel k : Nat)
    (hr : ∀ j, 10 ≤ rand j ∧ rand j ≤ 4000)
    (hhit : ∃ j, j < fuel ∧ rand (k + j) ∉ vlans) :
    ∃ v, next_vlan rand k vlans fuel = some (v, insert v vlans) ∧
      v ∉ vlans ∧ 10 ≤ v ∧ v ≤ 4000 := by
  induction fuel generalizing k with
  | zero =>
    obtain ⟨j, hj, _⟩ := hhit
    omega
  | succ n ih =>
    by_cases hc : rand k ∈ vlans
    · have hhit2 : ∃ j, j < n ∧ rand (k + 1 + j) ∉ vlans := by
        obtain ⟨j, hj, hnot⟩ := hhit
        match j with
        | 0 => exact absurd hc (by simpa using hnot)
        | j2 + 1 => exact ⟨j2, by omega, by rw [show k + 1 + j2 = k + (j2 + 1) by omega]; exact hnot⟩
      obtain ⟨v, hv, rest⟩ := ih (k + 1) hhit2
      refine ⟨v, ?_, rest⟩
      simp only [next_vlan, hc, not_true_eq_false, if_false]
      exact hv
    · refine ⟨rand k, ?_, hc, (hr k).1, (hr k).2⟩
      simp only [next_vlan, hc, not_false_eq_true, if_true]

/-- Witness for C1: a challenge with 3990 of the 3991 ids in use (all of
`[10, 4000]` except 500) allocates the remaining slot. -/
theorem C1_witness :
    ∃ v, next_vlan (fun _ => 500) 0 ((Finset.Icc 10 4000).erase 500) 1 =
        some (v, insert v ((Finset.Icc 10 4000).erase 500)) ∧
      v ∉ (Finset.Icc 10 4000).erase 500 ∧ 10 ≤ v ∧ v ≤ 4000 :=
  C1_next_vlan_allocates (fun _ => 500) ((Finset.Icc 10 4000).erase 500) 1 0
    (fun _ => ⟨by norm_num, by norm_num⟩)
    ⟨0, by norm_num, by simp⟩

/-- C2: the spec claims an unregistered challenge name makes
`Manager.connect_user` raise `UnknownChallengeError`.  The code defines no
such exception: the unguarded dict lookup `self.challenges[name]` raises a
plain `KeyError`.  Concretely, with only `"example"` registered, a call for
`"nope"` produces `KeyError`, which is not `UnknownChallengeError`. -/
theorem C2_unknown_challenge_counterexample :
    Manager.connect_user (fun _ => 17) 1 false
        (Manager.register_challenge ⟨[]⟩ "example" "host0" ["ex.yml"]).1
        "nope" "MFRGG" "10.8.0.2" 49152 =
      some (.error (.keyError "nope"),
        (Manager.register_challenge ⟨[]⟩ "example" "host0" ["ex.yml"]).1, []) ∧
    Err.keyError "nope" ≠ Err.unknownChallengeError := by
  constructor
  · rfl
  · decide

/-- C2 (amended): for every challenge name that was never registered,
`Manager.connect_user` and `Manager.disconnect_user` raise `KeyError` (the
unguarded dict lookup), which propagates to the RPC caller; the state is
untouched and no compose or netlink call is made. -/
theorem C2_unknown_challenge_keyError (rand : Nat → Nat) (fuel : Nat)
    (running : Bool) (m : ManagerSt) (name cn address : String) (port : Nat)
    (h : lookup m.challenges name = none) :
    Manager.connect_user rand fuel running m name cn address port =
        some (.error (.keyError name), m, []) ∧
      Manager.disconnect_user rand fuel running m name cn address port =
        some (.error (.keyError name), m, []) := by
  constructor
  · simp [Manager.connect_user, h]
  · simp [Manager.disconnect_user, h]

/-- Witness for C2: an empty manager rejects `"nope"` with `KeyError` on
both the connect and the disconnect path. -/
theorem C2_witness :
    Manager.connect_user (fun _ => 17) 1 false ⟨[]⟩ "nope" "MFRGG" "10.8.0.2" 49152 =
        some (.error (.keyError "nope"), ⟨[]⟩, []) ∧
      Manager.disconnect_user (fun _ => 17) 1 false ⟨[]⟩ "nope" "MFRGG" "10.8.0.2" 49152 =
        some (.error (.keyError "nope"), ⟨[]⟩, []) :=
  C2_unknown_challenge_keyError (fun _ => 17) 1 false ⟨[]⟩ "nope" "MFRGG"
    "10.8.0.2" 49152 rfl

/-- C3: the spec claims a base32/UTF-8 decode failure of `cn` is downgraded
to a warning, the display name falls back to the raw `cn`, and the connect
is not aborted.  In the code `User.__init__` calls `decode_cn` unguarded, so
the failure aborts `connect_user`: for the undecodable `cn = "1"` (not a
base32 digit) the call returns the decode error — no user is created, no
warning is logged, no connection is added. -/
theorem C3_decode_abort_counterexample :
    Challenge.connect_user (fun _ => 17) 1 false
        ⟨"example", "host0", ["ex.yml"], ∅, []⟩ "1" "10.8.0.2" 49152 =
      some (.error .decodeError, ⟨"example", "host0", ["ex.yml"], {17}, []⟩, []) := by
  decide

/-- C3 (amended): for every `cn` whose base32/UTF-8 decoding fails, the
failure is NOT tolerated: `connect_user` for a first-sight `cn` propagates
the decode failure and aborts — the user map is unchanged, no connection is
recorded, no compose or netlink call is made and no warning is logged (the
allocated VLAN id, however, stays behind, see C10). -/
theorem C3_decode_failure_aborts (rand : Nat → Nat) (fuel : Nat)
    (running : Bool) (c : ChallengeSt) (cn address : String) (port : Nat)
    (v : Nat) (vl2 : Finset Nat)
    (hno : lookup c.users cn = none)
    (hdec : decode_cn cn = none)
    (halloc : next_vlan rand 0 c.vlans fuel = some (v, vl2)) :
    Challenge.connect_user rand fuel running c cn address port =
      some (.error .decodeError, { c with vlans := vl2 }, []) := by
  have hno2 : (lookup c.users cn).isSome = false := by simp [hno]
  simp only [Challenge.connect_user, ensure_user_exists, hno2,
    Bool.false_eq_true, if_false, halloc, User.make, hdec]

/-- Witness for C3 (amended): the undecodable `cn = "1"` aborts the connect
on a fresh challenge. -/
theorem C3_witness :
    Challenge.connect_user (fun _ => 19) 1 true
        ⟨"example", "host0", ["ex.yml"], ∅, []⟩ "1" "10.8.0.3" 5000 =
      some (.error .decodeError, ⟨"example", "host0", ["ex.yml"], {19}, []⟩, []) :=
  C3_decode_failure_aborts (fun _ => 19) 1 true
    ⟨"example", "host0", ["ex.yml"], ∅, []⟩ "1" "10.8.0.3" 5000 19 {19}
    rfl (by decide) (by decide)

/-- C4: the spec claims `disconnect_user` on a registered challenge with an
unrecorded `(cn, addr)` pair returns null without raising and changes no
state.  This fails for a `cn` that is not in the user map:
`disconnect_user` first runs `_ensure_user_exists`, which allocates a VLAN
and constructs the user.  On the spec's own example — `disconnect_user`
with the unknown `cn = "ZZZZ"` (whose base32 decoding is not valid UTF-8) —
the call raises the decode error and leaves the allocated VLAN id behind:
state IS changed and an exception IS raised. -/
theorem C4_unknown_cn_counterexample :
    Challenge.disconnect_user (fun _ => 17) 1 false
        ⟨"example", "host0", ["ex.yml"], ∅, []⟩ "ZZZZ" "1.2.3.4" 9 =
      some (.error .decodeError, ⟨"example", "host0", ["ex.yml"], {17}, []⟩, []) := by
  decide

/-- C4 (amended): for a `cn` that is already in the challenge's user map,
`disconnect_user` with an unrecorded address returns null (success) without
raising, logs a warning, and changes no state.  For a `cn` not in the map
the claim fails: `_ensure_user_exists` allocates a VLAN and creates the
user (or raises, if `cn` does not decode). -/
theorem C4_disconnect_unknown_addr (rand : Nat → Nat) (fuel : Nat)
    (running : Bool) (c : ChallengeSt) (cn address : String) (port : Nat)
    (u : UserSt)
    (hu : lookup c.users cn = some u)
    (hmem : fmt_address address port ∉ u.connections) :
    Challenge.disconnect_user rand fuel running c cn address port =
      some (.ok (), c, [.warn]) := by
  have hu2 : (lookup c.users cn).isSome = true := by simp [hu]
  simp only [Challenge.disconnect_user,
    ensure_user_exists_of_mem rand fuel c cn hu2, hu, User.remove_connection,
    hmem, not_false_eq_true, if_true, update_eq_of_lookup c.users cn u hu]

/-- Witness for C4 (amended): a recorded user `"MFRGG"` with one connection;
disconnecting an address that was never recorded is a warned no-op. -/
theorem C4_witness :
    Challenge.disconnect_user (fun _ => 17) 1 false
        ⟨"example", "host0", ["ex.yml"], {17},
         [("MFRGG", ⟨"MFRGG", [97, 98, 99], 17, "mfrgg_example",
                     {"10.8.0.2:49152"}⟩)]⟩ "MFRGG" "1.2.3.4" 9 =
      some (.ok (),
        ⟨"example", "host0", ["ex.yml"], {17},
         [("MFRGG", ⟨"MFRGG", [97, 98, 99], 17, "mfrgg_example",
                     {"10.8.0.2:49152"}⟩)]⟩, [.warn]) :=
  C4_disconnect_unknown_addr (fun _ => 17) 1 false _ "MFRGG" "1.2.3.4" 9
    ⟨"MFRGG", [97, 98, 99], 17, "mfrgg_example", {"10.8.0.2:49152"}⟩
    (by decide) (by decide)

/-- C5: calling `connect_user` twice with the same
`(challenge, cn, address, port)` boots the cluster only on the first call
(the `0 → 1` transition): the second call returns the same vlan, leaves the
state exactly as after the first call — the user LIVE with the single
connection entry `"address:port"` — and issues no compose or netlink call
at all (in particular compose is not re-invoked). -/
theorem C5_connect_twice (rand : Nat → Nat) (fuel : Nat) (r1 r2 : Bool)
    (c : ChallengeSt) (cn address : String) (port : Nat) (v : Nat)
    (vl2 : Finset Nat) (nm : List Nat)
    (hno : lookup c.users cn = none)
    (hdec : decode_cn cn = some nm)
    (halloc : next_vlan rand 0 c.vlans fuel = some (v, vl2)) :
    ∃ c1 e1,
      Challenge.connect_user rand fuel r1 c cn address port =
          some (.ok v, c1, e1) ∧
      Challenge.connect_user rand fuel r2 c1 cn address port =
          some (.ok v, c1, []) ∧
      composeUpCount e1 = 1 ∧
      ∃ u, lookup c1.users cn = some u ∧
        u.connections = {fmt_address address port} ∧ u.connections.card = 1 := by
  refine ⟨_, _,
    connect_user_first rand fuel r1 c cn address port v vl2 nm hno hdec halloc,
    ?_, ?_, ?_⟩
  · -- second call: the user exists with one recorded connection
    have hlk : lookup
        (c.users ++ [(cn, ({ cn := cn, name := nm, vlan := v,
                             id := cn.toLower ++ "_" ++ c.name,
                             connections := {fmt_address address port} } : UserSt))]) cn =
        some { cn := cn, name := nm, vlan := v,
               id := cn.toLower ++ "_" ++ c.name,
               connections := {fmt_address address port} } :=
      lookup_append_right c.users cn _ hno
    have hens := ensure_user_exists_of_mem rand fuel
      { c with vlans := vl2,
               users := c.users ++
                 [(cn, { cn := cn, name := nm, vlan := v,
                         id := cn.toLower ++ "_" ++ c.name,
                         connections := {fmt_address address port} })] } cn
      (by simpa using congrArg Option.isSome hlk)
    have hidem : insert (fmt_address address port)
        ({fmt_address address port} : Finset String) = {fmt_address address port} :=
      Finset.insert_eq_self.mpr (Finset.mem_singleton_self _)
    simp only [Challenge.connect_user, hens, hlk, User.add_connection,
      Finset.card_singleton, one_ne_zero, if_false, hidem,
      update_eq_of_lookup _ _ _ hlk]
  · -- exactly one compose up in the boot trace
    cases r1 <;> simp [composeUpCount, isComposeUp]
  · exact ⟨_, lookup_append_right c.users cn _ hno, rfl, Finset.card_singleton _⟩

/-- Witness for C5: two identical connects of `"MFRGG"` from
`10.8.0.2:49152` on a fresh `"example"` challenge. -/
theorem C5_witness :
    ∃ c1 e1,
      Challenge.connect_user (fun _ => 17) 1 false
          ⟨"example", "host0", ["ex.yml"], ∅, []⟩ "MFRGG" "10.8.0.2" 49152 =
        some (.ok 17, c1, e1) ∧
      Challenge.connect_user (fun _ => 17) 1 false c1 "MFRGG" "10.8.0.2" 49152 =
        some (.ok 17, c1, []) ∧
      composeUpCount e1 = 1 ∧
      ∃ u, lookup c1.users "MFRGG" = some u ∧
        u.connections = {fmt_address "10.8.0.2" 49152} ∧ u.connections.card = 1 :=
  C5_connect_twice (fun _ => 17) 1 false false
    ⟨"example", "host0", ["ex.yml"], ∅, []⟩ "MFRGG" "10.8.0.2" 49152 17 {17}
    [97, 98, 99] rfl (by decide) (by decide)

/-- C6: `register_challenge` with an already-registered name is an
idempotent no-op: it raises nothing, logs a warning, and both the
challenges map and the stored `Challenge` (hence its `host_veth` and
`compose_files`) are unchanged. -/
theorem C6_register_duplicate (m : ManagerSt) (name host_veth : String)
    (compose_files : List String) (c : ChallengeSt)
    (h : lookup m.challenges name = some c) :
    Manager.register_challenge m name host_veth compose_files = (m, [.warn]) ∧
    lookup (Manager.register_challenge m name host_veth compose_files).1.challenges
        name = some c := by
  constructor <;> simp [Manager.register_challenge, h]

/-- Witness for C6: re-registering `"example"` with a different VETH and
compose list changes nothing. -/
theorem C6_witness :
    Manager.register_challenge
        ⟨[("example", ⟨"example", "host0", ["ex.yml"], ∅, []⟩)]⟩
        "example" "other0" ["other.yml"] =
      (⟨[("example", ⟨"example", "host0", ["ex.yml"], ∅, []⟩)]⟩, [.warn]) ∧
    lookup (Manager.register_challenge
        ⟨[("example", ⟨"example", "host0", ["ex.yml"], ∅, []⟩)]⟩
        "example" "other0" ["other.yml"]).1.challenges "example" =
      some ⟨"example", "host0", ["ex.yml"], ∅, []⟩ :=
  C6_register_duplicate _ "example" "other0" ["other.yml"] _ rfl

/-- C7: for every host VETH name and every VLAN id in `[10, 4000]`, the
VLAN sub-interface name is the VETH name truncated to
`15 - len(".<vlan>")` characters followed by `".<vlan>"`, and its total
length never exceeds 15. -/
theorem C7_vlan_ifname_spec (host_veth : String) (v : Nat)
    (h1 : 10 ≤ v) (h2 : v ≤ 4000) :
    vlan_ifname host_veth v =
      String.mk (host_veth.data.take (15 - ("." ++ Nat.repr v).length))
        ++ ("." ++ Nat.repr v) ∧
    (vlan_ifname host_veth v).length ≤ 15 := by
  have hr : (Nat.repr v).length ≤ 4 := Nat.repr_length v 4 (by norm_num) (by omega)
  have hs : ("." ++ Nat.repr v).length = 1 + (Nat.repr v).length := by
    rw [String.length_append]
    rfl
  have hb : ¬ ((15 : Int) - ((("." ++ Nat.repr v).length : Nat) : Int) < 0) := by
    omega
  have harg : (((15 : Int) - ((("." ++ Nat.repr v).length : Nat) : Int))).toNat
      = 15 - ("." ++ Nat.repr v).length := by
    omega
  have heq : vlan_ifname host_veth v =
      String.mk (host_veth.data.take (15 - ("." ++ Nat.repr v).length))
        ++ ("." ++ Nat.repr v) := by
    simp only [vlan_ifname, hb, if_false, harg]
  refine ⟨heq, ?_⟩
  rw [heq, String.length_append, String.mk_length, List.length_take]
  omega

/-- Witness for C7: a 16-character VETH name with the largest VLAN id is
truncated to the 15-byte kernel limit. -/
theorem C7_witness :
    (vlan_ifname "verylongvethname" 4000 =
      String.mk (("verylongvethname" : String).data.take
          (15 - ("." ++ Nat.repr 4000).length))
        ++ ("." ++ Nat.repr 4000)) ∧
    (vlan_ifname "verylongvethname" 4000).length ≤ 15 :=
  C7_vlan_ifname_spec "verylongvethname" 4000 (by norm_num) (by norm_num)

/-- C8: when `remove_connection` drains the connection set and the cluster
is reported running, the user runs `compose down --timeout 10` and then
removes the VLAN sub-interface (the `LIVE → IDLE` transition); when the
cluster is not reported running it logs a warning and returns, touching
neither compose-down nor netlink. -/
theorem C8_remove_last_connection (u : UserSt) (host_veth address : String)
    (port : Nat) (hconn : u.connections = {fmt_address address port}) :
    User.remove_connection u host_veth true address port =
      ({ u with connections := ∅ },
       [.composeTop u.id, .composeDown u.id 10,
        .vlanGone (vlan_ifname host_veth u.vlan)]) ∧
    User.remove_connection u host_veth false address port =
      ({ u with connections := ∅ }, [.composeTop u.id, .warn]) := by
  have hmem : fmt_address address port ∈ u.connections := by
    rw [hconn]
    exact Finset.mem_singleton_self _
  have her : u.connections.erase (fmt_address address port) = ∅ := by
    rw [hconn]
    exact Finset.erase_singleton _
  constructor <;> simp [User.remove_connection, hmem, her]

/-- Witness for C8: user `"MFRGG"` with the single connection
`10.8.0.2:49152` drains it in both environments. -/
theorem C8_witness :
    User.remove_connection
        ⟨"MFRGG", [97, 98, 99], 17, "mfrgg_example", {"10.8.0.2:49152"}⟩
        "host0" true "10.8.0.2" 49152 =
      (⟨"MFRGG", [97, 98, 99], 17, "mfrgg_example", ∅⟩,
       [.composeTop "mfrgg_example", .composeDown "mfrgg_example" 10,
        .vlanGone (vlan_ifname "host0" 17)]) ∧
    User.remove_connection
        ⟨"MFRGG", [97, 98, 99], 17, "mfrgg_example", {"10.8.0.2:49152"}⟩
        "host0" false "10.8.0.2" 49152 =
      (⟨"MFRGG", [97, 98, 99], 17, "mfrgg_example", ∅⟩,
       [.composeTop "mfrgg_example", .warn]) :=
  C8_remove_last_connection
    ⟨"MFRGG", [97, 98, 99], 17, "mfrgg_example", {"10.8.0.2:49152"}⟩
    "host0" "10.8.0.2" 49152 rfl

/-- C9: the spec says `disconnect_all` iterates the users and calls
`stop()` on every `User`, stopping each cluster with
`compose down --timeout 2`.  The code iterates the KEYS of the user dict
(`for u in self.users`) and calls `.stop()` on each key string, so on any
challenge with at least one user it raises `AttributeError` before stopping
anything: on a one-user challenge `disconnect_all` produces the attribute
error and an empty effect trace, whereas `User.stop` on that user (the
intent) would have issued `compose down --timeout 2`. -/
theorem C9_disconnect_all_attribute_error :
    Challenge.disconnect_all
        ⟨"example", "host0", ["ex.yml"], {17},
         [("MFRGG", ⟨"MFRGG", [97, 98, 99], 17, "mfrgg_example",
                     {"10.8.0.2:49152"}⟩)]⟩ =
      (.error .attributeError, []) ∧
    User.stop
        ⟨"MFRGG", [97, 98, 99], 17, "mfrgg_example", {"10.8.0.2:49152"}⟩ =
      (⟨"MFRGG", [97, 98, 99], 17, "mfrgg_example", {"10.8.0.2:49152"}⟩,
       [.composeDown "mfrgg_example" 2]) :=
  ⟨rfl, rfl⟩

/-- C10: if `cn` is not yet in the users map and construction of the `User`
fails (its base32/UTF-8 decode raises), `_ensure_user_exists` leaves the
users map unchanged but the VLAN id freshly allocated by `_next_vlan`
remains in the challenge's `vlans` set — an id in use that belongs to no
user, breaking allocator consistency. -/
theorem C10_vlan_leak (rand : Nat → Nat) (fuel : Nat) (c : ChallengeSt)
    (cn : String) (v : Nat) (vl2 : Finset Nat)
    (hno : lookup c.users cn = none)
    (hdec : decode_cn cn = none)
    (halloc : next_vlan rand 0 c.vlans fuel = some (v, vl2)) :
    ensure_user_exists rand fuel c cn =
        some (.error .decodeError, { c with vlans := vl2 }) ∧
      vl2 = insert v c.vlans ∧ v ∉ c.vlans ∧
      ∀ p ∈ c.users, p.2.vlan ∈ c.vlans → p.2.vlan ≠ v := by
  obtain ⟨hv, hins⟩ := next_vlan_some rand c.vlans fuel 0 v vl2 halloc
  have hno2 : (lookup c.users cn).isSome = false := by simp [hno]
  refine ⟨?_, hins, hv, ?_⟩
  · simp only [ensure_user_exists, hno2, Bool.false_eq_true, if_false, halloc,
      User.make, hdec]
  · intro p _ hmem heqv
    exact hv (heqv ▸ hmem)

/-- Witness for C10: `disconnect_user`-style get-or-create of the
undecodable `"ZZZZ"` on a fresh challenge leaks VLAN id 17. -/
theorem C10_witness :
    ensure_user_exists (fun _ => 17) 1
        ⟨"example", "host0", ["ex.yml"], ∅, []⟩ "ZZZZ" =
      some (.error .decodeError, ⟨"example", "host0", ["ex.yml"], {17}, []⟩) ∧
    ({17} : Finset Nat) = insert 17 (∅ : Finset Nat) ∧ 17 ∉ (∅ : Finset Nat) ∧
    ∀ p ∈ ([] : List (String × UserSt)), p.2.vlan ∈ (∅ : Finset Nat) →
      p.2.vlan ≠ 17 :=
  C10_vlan_leak (fun _ => 17) 1 ⟨"example", "host0", ["ex.yml"], ∅, []⟩
    "ZZZZ" 17 {17} rfl (by decide) (by decide)

end Naum
